import Mathlib

/-!
Shallow embedding of the retrieval-and-reranking query pipeline of
`course_ingest.py` from the college-seeker repository, together with
theorems settling the specification claims about it.

Conventions of the embedding:
  - Python machine floats that merely flow through the pipeline (relevance
    scores) are carried as exact rationals; no claim performs float
    arithmetic, only conversion and comparison for identity.
  - A Python function that can raise returns `Except PyError _` or
    `Option _`; `none` on a conversion helper models a raised
    `TypeError`/`ValueError`.
  - External collaborators (the compression retriever, the LLM agent) are
    parameters of the embedded functions; the constructor calls that wire
    them up at module load are embedded as records of the keyword
    arguments the module actually passes, with `none` meaning the argument
    is omitted so the external library default applies.
-/

namespace CollegeSeeker

/-- Errors raised by `course_ingest.py`: `raise ValueError(...)` on line 123
and `raise RuntimeError(...)` on line 129. -/
inductive PyError where
  | valueError (msg : String)
  | runtimeError (msg : String)
deriving DecidableEq

/-- ASCII whitespace stripped by Python `str.strip()` (non-ASCII Unicode
whitespace is not modelled; no claim depends on it). -/
def isPyWhitespace (c : Char) : Bool :=
  c = ' ' || c = '\t' || c = '\n' || c = '\r' || c = '\x0b' || c = '\x0c'

/-- Leading and trailing whitespace removed from a character list. -/
def stripChars (l : List Char) : List Char :=
  ((l.dropWhile isPyWhitespace).reverse.dropWhile isPyWhitespace).reverse

/-- Model of Python `s.strip()` with no arguments. -/
def pyStrip (s : String) : String :=
  String.mk (stripChars s.data)

/-- Numeric value of a list of decimal digit characters. -/
def digitsToNat (l : List Char) : Nat :=
  l.foldl (fun a c => a * 10 + (c.toNat - 48)) 0

/-- Model of Python `int(s)` on a string: optional surrounding whitespace,
optional sign, then at least one decimal digit. Underscore separators and
non-decimal bases are not modelled; no claim depends on them. `none` models
a raised `ValueError`. Used for the `int(os.getenv(...))` config lines. -/
def pyIntOfString (s : String) : Option Int :=
  let t := stripChars s.data
  let sr : Int × List Char :=
    match t with
    | '+' :: r => (1, r)
    | '-' :: r => (-1, r)
    | r => (1, r)
  if sr.2 ≠ [] ∧ sr.2.all Char.isDigit then
    some (sr.1 * (digitsToNat sr.2 : Int))
  else
    none

/-- Parsed shape of a Python float string: sign, integer-part digits,
fractional-part digits, exponent. -/
structure FloatParts where
  neg : Bool
  intPart : List Char
  fracPart : List Char
  exp : Int
deriving DecidableEq

/-- Syntactic parsing step of Python `float(s)` on a string: optional
surrounding whitespace, optional sign, a decimal mantissa `d*[.d*]`
containing at least one digit, and an optional exponent `e`/`E` with
optional sign and at least one digit. The special forms `inf`/`nan` and
underscore separators are not modelled; no claim depends on them. `none`
models a raised `ValueError`. -/
def pyFloatParse (s : String) : Option FloatParts :=
  let t := stripChars s.data
  let sr : Bool × List Char :=
    match t with
    | '+' :: r => (false, r)
    | '-' :: r => (true, r)
    | r => (false, r)
  let mantExp := sr.2.span (fun c => ¬ (c = 'e' ∨ c = 'E'))
  let expVal : Option Int :=
    match mantExp.2 with
    | [] => some 0
    | _ :: er =>
      let se : Int × List Char :=
        match er with
        | '+' :: r2 => (1, r2)
        | '-' :: r2 => (-1, r2)
        | r2 => (1, r2)
      if se.2 ≠ [] ∧ se.2.all Char.isDigit then
        some (se.1 * (digitsToNat se.2 : Int))
      else
        none
  let ipFrac := mantExp.1.span (fun c => c ≠ '.')
  let fracOpt : Option (List Char) :=
    match ipFrac.2 with
    | [] => some []
    | _ :: f => if f.all (fun c => c ≠ '.') then some f else none
  match expVal, fracOpt with
  | some e, some f =>
    if (ipFrac.1 ++ f) ≠ [] ∧ ipFrac.1.all Char.isDigit ∧ f.all Char.isDigit then
      some ⟨sr.1, ipFrac.1, f, e⟩
    else
      none
  | _, _ => none

/-- The rational value denoted by a parsed Python float string. -/
def ratOfParts (p : FloatParts) : ℚ :=
  let sgn : ℚ := if p.neg then -1 else 1
  let mag : ℚ := (digitsToNat (p.intPart ++ p.fracPart) : ℚ) / (10 : ℚ) ^ p.fracPart.length
  if 0 ≤ p.exp then sgn * mag * (10 : ℚ) ^ p.exp.toNat
  else sgn * mag / (10 : ℚ) ^ (-p.exp).toNat

/-- Model of Python `float(s)` on a string. -/
def pyFloatOfString (s : String) : Option ℚ :=
  (pyFloatParse s).map ratOfParts

/-- A Python value held in a document's metadata dict. Containers are kept
abstract because the pipeline only ever converts them (raising
`TypeError`); `pynone` is Python's `None` stored as an explicit value. -/
inductive MetaVal where
  | str (s : String)
  | int (n : Int)
  | float (q : ℚ)
  | bool (b : Bool)
  | list
  | dict
  | pynone
deriving DecidableEq

/-- Model of Python `float(v)` on a metadata value; `none` models a raised
`TypeError` (containers, `None`) or `ValueError` (non-numeric string). -/
def pyFloat : MetaVal → Option ℚ
  | .float q => some q
  | .int n => some (n : ℚ)
  | .bool b => some (if b then 1 else 0)
  | .str s => pyFloatOfString s
  | .list => none
  | .dict => none
  | .pynone => none

/-- Lines 172-176 of `course_ingest.py`: `score = doc.metadata.get
("relevance_score")` followed by `score_val = float(score) if score is not
None else None` inside `try`, with `TypeError` and `ValueError` caught and
mapped to `None`. The argument is the result of the metadata lookup
(`none` = key absent). -/
def scoreVal (score : Option MetaVal) : Option ℚ :=
  match score with
  | none => none
  | some .pynone => none
  | some v => pyFloat v

/-- A LangChain `Document` as consumed by `get_reranked_courses`: its
`page_content` string and its `metadata` dict. -/
structure Document where
  page_content : String
  metadata : List (String × MetaVal)
deriving DecidableEq

/-- Python `metadata.get(key)`: the value at the first matching key, or
`none` when the key is absent. -/
def getMeta (m : List (String × MetaVal)) (k : String) : Option MetaVal :=
  (m.find? (fun p => p.1 = k)).map Prod.snd

/-- A value of one of the Python dicts built on lines 178-185: metadata
lookup results, the snippet string, and the converted score. -/
inductive HitField where
  | optMeta (v : Option MetaVal)
  | text (s : String)
  | optScore (q : Option ℚ)
deriving DecidableEq

/-- The hit dict built for one document on lines 178-185 of
`course_ingest.py`, embedded as the ordered list of its key-value pairs so
that the field names themselves are part of the model. -/
def mkHit (doc : Document) : List (String × HitField) :=
  [ ("course_id", HitField.optMeta (getMeta doc.metadata "course_id")),
    ("url", HitField.optMeta (getMeta doc.metadata "url")),
    ("snippet", HitField.text doc.page_content),
    ("score", HitField.optScore (scoreVal (getMeta doc.metadata "relevance_score"))) ]

/-- Python list slicing `l[:limit]` for an arbitrary integer `limit`:
nonnegative limits keep the first `limit` elements, negative limits drop
the last `-limit` elements (clamped at the empty list). -/
def pySlice (limit : Int) (l : List α) : List α :=
  if 0 ≤ limit then l.take limit.toNat
  else l.take (l.length - (-limit).toNat)

/-- Lines 160-186 of `course_ingest.py`, `get_reranked_courses`. The
external `compression_retriever.invoke` is the parameter `retrieve`. An
empty-after-strip query returns `[]` on line 164; otherwise the retrieved
documents are sliced by `limit` when one is given and mapped to hit dicts.
The `Except` channel records that the function body raises no error. -/
def get_reranked_courses (retrieve : String → List Document)
    (query : String) (limit : Option Int) :
    Except PyError (List (List (String × HitField))) :=
  if pyStrip query = "" then Except.ok []
  else
    let docs := retrieve (pyStrip query)
    let docs := match limit with
      | some n => pySlice n docs
      | none => docs
    Except.ok (docs.map mkHit)

/-- One element of a structured LLM response content list, as discriminated
on lines 138-142 of `course_ingest.py`: a plain string, a dict whose
optional `text` entry is string-valued (the shape the code reads with
`chunk.get("text", "")`), or any other value, which the loop skips. -/
inductive Chunk where
  | str (s : String)
  | dict (text : Option String)
  | other
deriving DecidableEq

/-- The text appended to `text_parts` for one chunk (lines 139-142), or
`none` when the chunk is neither a string nor a dict and nothing is
appended. -/
def chunkText : Chunk → Option String
  | .str s => some s
  | .dict t => some (t.getD "")
  | .other => none

/-- Line 143 of `course_ingest.py`: join the collected text parts with a
newline, keeping only truthy (non-empty) parts. -/
def flattenChunks (content : List Chunk) : String :=
  String.intercalate "\n" ((content.filterMap chunkText).filter (fun p => p ≠ ""))

/-- The `content` of an LLM message as discriminated by the code: a plain
string, a list of chunks, or some other Python value whose `str()` image is
`repr`. -/
inductive Content where
  | str (s : String)
  | list (chunks : List Chunk)
  | otherVal (repr : String)
deriving DecidableEq

/-- A message in the agent response (lines 131-157): an object carrying a
`content` attribute (with `repr` its `str()` image, used when the content
has an unhandled type), a dict with an optional `content` entry, or any
other value rendered with `str()`. -/
inductive Message where
  | obj (content : Content) (repr : String)
  | dict (content : Option Content)
  | plain (repr : String)
deriving DecidableEq

/-- Lines 133-157 of `course_ingest.py`: normalize the final message into a
single string. Object content: flatten lists, return strings as they are,
otherwise fall through to `str(ai_message)`. Dict content (default `""`):
flatten lists, render everything else with `str()`. Other messages:
`str(ai_message)`. -/
def normalizeMessage : Message → String
  | .obj (.list l) _ => flattenChunks l
  | .obj (.str s) _ => s
  | .obj (.otherVal _) r => r
  | .dict c =>
    match c.getD (Content.str "") with
    | .list l => flattenChunks l
    | .str s => s
    | .otherVal r => r
  | .plain r => r

/-- The dict returned by `agent.invoke`, reduced to the `messages` list the
code reads on line 127. -/
structure AgentResponse where
  messages : List Message
deriving DecidableEq

/-- Lines 113-157 of `course_ingest.py`, `process_course_query`. The
external agent is the parameter `agent`. An empty-after-strip query raises
`ValueError`; an empty `messages` list raises `RuntimeError`; otherwise the
last message is normalized to a string. -/
def process_course_query (agent : String → AgentResponse) (query : String) :
    Except PyError String :=
  if pyStrip query = "" then
    Except.error (PyError.valueError "Course query cannot be empty.")
  else
    match (agent query).messages.getLast? with
    | none => Except.error (PyError.runtimeError "Agent returned an empty response.")
    | some m => Except.ok (normalizeMessage m)

/-- Line 29 of `course_ingest.py`:
`VECTOR_QUERY_K = int(os.getenv("VECTOR_QUERY_K", "12"))`, over an
environment `env` (`none` = variable unset). -/
def VECTOR_QUERY_K (env : String → Option String) : Option Int :=
  pyIntOfString ((env "VECTOR_QUERY_K").getD "12")

/-- Line 30 of `course_ingest.py`:
`RERANK_TOP_N = int(os.getenv("RERANK_TOP_N", "6"))`, over an environment
`env` (`none` = variable unset). -/
def RERANK_TOP_N (env : String → Option String) : Option Int :=
  pyIntOfString ((env "RERANK_TOP_N").getD "6")

/-- The keyword arguments `course_ingest.py` passes when it builds the
vector retriever: `search_k` is the `k` inside `search_kwargs`, `none` when
the argument is omitted so the external library default applies. -/
structure RetrieverArgs where
  search_k : Option Int
deriving DecidableEq

/-- Line 42 of `course_ingest.py`: `vector_retriever =
vector_store.as_retriever()` — called with no arguments, so no result
count is requested and the library default applies. -/
def vector_retriever : RetrieverArgs :=
  { search_k := none }

/-- The keyword arguments `course_ingest.py` passes when it builds the
reranking compressor: `top_n` is `none` when the argument is omitted so the
external library default applies. -/
structure FlashrankArgs where
  top_n : Option Int
deriving DecidableEq

/-- Line 43 of `course_ingest.py`: `flashrank_compressor =
FlashrankRerank()` — called with no arguments, so `top_n` is not passed
and the library default applies. -/
def flashrank_compressor : FlashrankArgs :=
  { top_n := none }

/-- The wiring of the compression retriever on lines 44-47 of
`course_ingest.py`. -/
structure CompressionRetrieverArgs where
  base_retriever : RetrieverArgs
  base_compressor : FlashrankArgs
deriving DecidableEq

/-- Lines 44-47 of `course_ingest.py`: `compression_retriever =
ContextualCompressionRetriever(base_retriever=vector_retriever,
base_compressor=flashrank_compressor)`. -/
def compression_retriever : CompressionRetrieverArgs :=
  { base_retriever := vector_retriever, base_compressor := flashrank_compressor }

/-- C1: the specification's reranking stage is claimed to return the top-N
candidates with default N = 6 (`RERANK_TOP_N`, line 30), but the module
constructs `FlashrankRerank()` with no `top_n` argument, so the configured
constant never reaches the reranker and the external library default
governs truncation instead. -/
theorem c1_rerank_topn_unwired :
    compression_retriever.base_compressor.top_n = none ∧
    RERANK_TOP_N (fun _ => none) = some 6 := by
  exact ⟨rfl, by decide⟩

/-- C2: the specification's similarity search is claimed to request a fixed
result count K with default 12 (`VECTOR_QUERY_K`, line 29), but the module
calls `vector_store.as_retriever()` with no arguments, so the configured
constant never reaches the retriever and the external library default
governs the result count instead. -/
theorem c2_vector_k_unwired :
    vector_retriever.search_k = none ∧
    VECTOR_QUERY_K (fun _ => none) = some 12 := by
  exact ⟨rfl, by decide⟩

/-- C3 counterexample: on an empty or whitespace-only query,
`get_reranked_courses` does not fail with a validation error — it returns
the empty list as an ordinary result (line 164). -/
theorem c3_empty_query_returns_empty_list :
    get_reranked_courses (fun _ => []) "" none = Except.ok [] ∧
    get_reranked_courses (fun _ => []) "   " none = Except.ok [] := by
  exact ⟨rfl, rfl⟩

/-- C3 amended: for a query that is empty after trimming,
`process_course_query` raises `ValueError` (the code's realization of the
spec's ValidationError), while `get_reranked_courses` instead returns the
empty list without raising. -/
theorem c3_empty_query_behavior (agent : String → AgentResponse)
    (retrieve : String → List Document) (query : String) (limit : Option Int)
    (h : pyStrip query = "") :
    process_course_query agent query =
      Except.error (PyError.valueError "Course query cannot be empty.") ∧
    get_reranked_courses retrieve query limit = Except.ok [] := by
  unfold process_course_query get_reranked_courses
  simp [h]

/-- C3 witness: the amended behavior at the concrete query `" "`. -/
theorem c3_empty_query_behavior_witness :
    process_course_query (fun _ => ⟨[]⟩) " " =
      Except.error (PyError.valueError "Course query cannot be empty.") ∧
    get_reranked_courses (fun _ => []) " " none = Except.ok [] :=
  c3_empty_query_behavior (fun _ => ⟨[]⟩) (fun _ => []) " " none (by decide)

/-- C4: when the final message's content is a list of mixed string and
structured chunks, `process_course_query` returns the single string that
joins the extractable non-empty text fragments with newlines; in
particular the content `[{"text": "a"}, "b"]` normalizes to `"a\nb"`. -/
theorem c4_list_content_normalized :
    (∀ (agent : String → AgentResponse) (query : String)
      (chunks : List Chunk) (r : String),
      pyStrip query ≠ "" →
      (agent query).messages.getLast? = some (Message.obj (Content.list chunks) r) →
      process_course_query agent query = Except.ok (flattenChunks chunks)) ∧
    process_course_query
      (fun _ => ⟨[Message.obj (Content.list [Chunk.dict (some "a"), Chunk.str "b"]) ""]⟩)
      "q" = Except.ok "a\nb" := by
  constructor
  · intro agent query chunks r hq hm
    unfold process_course_query
    simp [hq, hm, normalizeMessage]
  · rfl

/-- C4 witness: the general normalization statement applied at a concrete
agent response whose list content holds a string chunk and a skipped
non-string non-dict chunk. -/
theorem c4_list_content_normalized_witness :
    process_course_query
      (fun _ => ⟨[Message.obj (Content.list [Chunk.str "x", Chunk.other]) ""]⟩) "q" =
      Except.ok "x" :=
  c4_list_content_normalized.1
    (fun _ => ⟨[Message.obj (Content.list [Chunk.str "x", Chunk.other]) ""]⟩)
    "q" [Chunk.str "x", Chunk.other] "" (by decide) rfl

/-- C5 counterexample: when the final message's list content carries no
extractable text fragment, `process_course_query` does not fail — it
returns the empty string as an ordinary value. -/
theorem c5_no_fragments_returns_empty_string :
    process_course_query
      (fun _ => ⟨[Message.obj (Content.list [Chunk.dict none, Chunk.other]) "AIMessage"]⟩)
      "q" = Except.ok "" := by
  rfl

/-- C5 amended: with no messages in the agent response,
`process_course_query` raises `RuntimeError` (the code's realization of the
spec's EmptyResponseError); with messages present but no extractable text
fragment in the final message's list content, it returns the empty string
rather than raising. -/
theorem c5_empty_response_behavior :
    (∀ (agent : String → AgentResponse) (query : String),
      pyStrip query ≠ "" → (agent query).messages = [] →
      process_course_query agent query =
        Except.error (PyError.runtimeError "Agent returned an empty response.")) ∧
    (∀ (agent : String → AgentResponse) (query : String)
      (chunks : List Chunk) (r : String),
      pyStrip query ≠ "" →
      (agent query).messages.getLast? = some (Message.obj (Content.list chunks) r) →
      (chunks.filterMap chunkText).filter (fun p => p ≠ "") = [] →
      process_course_query agent query = Except.ok "") := by
  constructor
  · intro agent query hq hm
    unfold process_course_query
    simp [hq, hm]
  · intro agent query chunks r hq hm hf
    unfold process_course_query
    simp [hq, hm, normalizeMessage]
    unfold flattenChunks
    rw [hf]
    rfl

/-- C5 witness: the amended behavior at concrete inputs — an agent with no
messages, and an agent whose final list content holds only an empty text
fragment. -/
theorem c5_empty_response_behavior_witness :
    process_course_query (fun _ => ⟨[]⟩) "q" =
      Except.error (PyError.runtimeError "Agent returned an empty response.") ∧
    process_course_query
      (fun _ => ⟨[Message.obj (Content.list [Chunk.dict (some "")]) ""]⟩) "q" =
      Except.ok "" :=
  ⟨c5_empty_response_behavior.1 (fun _ => ⟨[]⟩) "q" (by decide) rfl,
   c5_empty_response_behavior.2
     (fun _ => ⟨[Message.obj (Content.list [Chunk.dict (some "")]) ""]⟩) "q"
     [Chunk.dict (some "")] "" (by decide) rfl (by decide)⟩

/-- C6: the normalization step is idempotent — an already-normalized result
(a plain string carried as message content) is returned unchanged, so a
second pass performs no further transformation. -/
theorem c6_normalization_idempotent (m : Message) (r : String) :
    normalizeMessage (Message.obj (Content.str (normalizeMessage m)) r) =
      normalizeMessage m :=
  rfl

/-- C6 witness: idempotence at a concrete message. -/
theorem c6_normalization_idempotent_witness :
    normalizeMessage (Message.obj (Content.str "x") "r") = "x" :=
  c6_normalization_idempotent (Message.plain "x") "r"

/-- C7: when the retriever yields fewer documents than the requested limit,
`get_reranked_courses` returns all available results, in retrieval order,
without raising an error. -/
theorem c7_limit_exceeds_results (retrieve : String → List Document)
    (query : String) (limit : Int)
    (hq : pyStrip query ≠ "")
    (hl : ((retrieve (pyStrip query)).length : Int) < limit) :
    get_reranked_courses retrieve query (some limit) =
      Except.ok ((retrieve (pyStrip query)).map mkHit) := by
  have h0 : 0 ≤ limit := le_trans (Int.ofNat_nonneg _) (le_of_lt hl)
  have hlen : (retrieve (pyStrip query)).length ≤ limit.toNat := by omega
  unfold get_reranked_courses pySlice
  simp [hq, h0, List.take_of_length_le hlen]

/-- C7 witness: one retrieved document and a limit of 5 returns the single
hit. -/
theorem c7_limit_exceeds_results_witness :
    get_reranked_courses (fun _ => [⟨"snip", []⟩]) "q" (some 5) =
      Except.ok [[("course_id", HitField.optMeta none), ("url", HitField.optMeta none),
        ("snippet", HitField.text "snip"), ("score", HitField.optScore none)]] :=
  c7_limit_exceeds_results (fun _ => [⟨"snip", []⟩]) "q" 5 (by decide) (by decide)

/-- C8 counterexample: a hit record's field names are `course_id`, `url`,
`snippet`, `score` — not `source_id` as the claim states. -/
theorem c8_field_named_course_id :
    (mkHit ⟨"snip", []⟩).map Prod.fst = ["course_id", "url", "snippet", "score"] ∧
    (mkHit ⟨"snip", []⟩).map Prod.fst ≠ ["source_id", "url", "snippet", "score"] := by
  decide

/-- C8 amended: for every non-empty query, every record returned by
`get_reranked_courses` has exactly the fields `course_id`, `url`,
`snippet`, `score`, in that order. -/
theorem c8_hit_fields (retrieve : String → List Document) (query : String)
    (limit : Option Int) (hits : List (List (String × HitField)))
    (hq : pyStrip query ≠ "")
    (h : get_reranked_courses retrieve query limit = Except.ok hits) :
    ∀ hit ∈ hits, hit.map Prod.fst = ["course_id", "url", "snippet", "score"] := by
  unfold get_reranked_courses at h
  simp [hq] at h
  intro hit hmem
  rw [← h] at hmem
  rcases List.mem_map.mp hmem with ⟨doc, _, hd⟩
  rw [← hd]
  rfl

/-- C8 witness: the amended field-name statement at a concrete retrieval of
one document. -/
theorem c8_hit_fields_witness :
    (mkHit ⟨"snip", []⟩).map Prod.fst = ["course_id", "url", "snippet", "score"] :=
  c8_hit_fields (fun _ => [⟨"snip", []⟩]) "q" none [mkHit ⟨"snip", []⟩]
    (by decide) rfl (mkHit ⟨"snip", []⟩) (by simp)

/-- C10 counterexample: a `relevance_score` metadata value of the
non-numeric type `str` holding `"0.5"` is converted to the float `1/2`,
not mapped to `None` as the claim states. -/
theorem c10_numeric_string_score :
    scoreVal (some (MetaVal.str "0.5")) = some (1 / 2 : ℚ) ∧
    scoreVal (some (MetaVal.str "0.5")) ≠ none := by
  have hp : pyFloatParse "0.5" = some ⟨false, ['0'], ['5'], 0⟩ := by decide
  have h : scoreVal (some (MetaVal.str "0.5")) = some (ratOfParts ⟨false, ['0'], ['5'], 0⟩) := by
    show (pyFloatParse "0.5").map ratOfParts = _
    rw [hp]
    rfl
  have hd : digitsToNat ['0', '5'] = 5 := by decide
  have hr : ratOfParts ⟨false, ['0'], ['5'], 0⟩ = 1 / 2 := by
    unfold ratOfParts
    norm_num [hd]
  rw [h, hr]
  simp

/-- C10 amended: every hit's `score` field is the total (never-raising)
conversion of the `relevance_score` metadata value, yielding a float or
`None`: absent keys, explicit `None`, containers and non-numeric strings
map to `None`, while floats pass through (and numeric strings convert). -/
theorem c10_score_conversion :
    (∀ doc : Document,
      (mkHit doc).find? (fun p => p.1 = "score") =
        some ("score", HitField.optScore (scoreVal (getMeta doc.metadata "relevance_score")))) ∧
    scoreVal none = none ∧
    scoreVal (some MetaVal.pynone) = none ∧
    scoreVal (some MetaVal.dict) = none ∧
    scoreVal (some MetaVal.list) = none ∧
    scoreVal (some (MetaVal.str "not a number")) = none ∧
    scoreVal (some (MetaVal.float (7 / 10))) = some (7 / 10 : ℚ) := by
  exact ⟨fun doc => rfl, rfl, rfl, rfl, rfl, rfl, rfl⟩

/-- C10 witness: the score-field statement at a concrete document whose
`relevance_score` is the numeric string `"0.25"`. -/
theorem c10_score_conversion_witness :
    (mkHit ⟨"s", [("relevance_score", MetaVal.str "0.25")]⟩).find? (fun p => p.1 = "score") =
      some ("score", HitField.optScore (some (1 / 4 : ℚ))) := by
  have h := c10_score_conversion.1 ⟨"s", [("relevance_score", MetaVal.str "0.25")]⟩
  have hp : pyFloatParse "0.25" = some ⟨false, ['0'], ['2', '5'], 0⟩ := by decide
  have hd : digitsToNat ['0', '2', '5'] = 25 := by decide
  have hr : ratOfParts ⟨false, ['0'], ['2', '5'], 0⟩ = 1 / 4 := by
    unfold ratOfParts
    norm_num [hd]
  have hs : scoreVal (getMeta [("relevance_score", MetaVal.str "0.25")] "relevance_score") =
      some (1 / 4 : ℚ) := by
    show (pyFloatParse "0.25").map ratOfParts = _
    rw [hp]
    simp [hr]
  rw [h, hs]

end CollegeSeeker
